import Mathlib

/-!
Shallow embedding of `src/navigator/orchestrator.py` (class `Navigator`).

The orchestrator composes external collaborators (task planner, web
navigation engine, semantic memory index, inference client, browser
session manager). Collaborator behaviour is modelled as a record of
oracle functions returning `Except Err _` (a Python exception raised by
a collaborator call becomes `Except.error`). Each public operation of
the orchestrator is translated into a pure Lean function that returns
the list of collaborator calls it performed (the event trace, in call
order) together with its result. Python `try/finally` semantics are
modelled faithfully: the `finally` block always runs, and an exception
raised in the `finally` block replaces the in-flight exception.
-/

set_option autoImplicit false

namespace Orchestrator

/-- Exceptions are modelled as opaque string identities. -/
abbrev Err := String

/-- Python dict lookup `d.get(k)` on a string-to-string mapping,
modelled on an association list: first binding of the key wins. -/
def dictGet (d : List (String × String)) (k : String) : Option String :=
  (d.find? (fun p => p.fst == k)).map Prod.snd

/-- Python dict lookup with default, `d.get(k, dflt)`. -/
def dictGetD (d : List (String × String)) (k : String) (dflt : String) : String :=
  (dictGet d k).getD dflt

/-- A memory record returned by the semantic memory index, as the
orchestrator accesses it: `m.get('text', '')` and
`m.get('metadata', {}).get('type')`. A missing key is `none`. -/
structure MemoryRecord where
  text : Option String
  metadata : Option (List (String × String))
  deriving DecidableEq, Repr

/-- One collaborator call made by the orchestrator, with its arguments. -/
inductive Event where
  | planCall (goal url content : String) (hist : List String)
  | navigateCall (goal plan : String)
  | searchCall (query : String) (k : Nat)
  | generateCall (prompt modelType : String)
  | closeCall
  deriving DecidableEq, Repr

/-- The collaborator behaviours one execution runs against: the live
navigation state read in the PLANNING step, and the outcome of each
collaborator call (`Except.error` models a raised exception). -/
structure Collaborators where
  current_url : String
  page_content : String
  captured_apis : List String
  create_detailed_plan : String → String → String → List String → Except Err String
  navigate_and_learn : String → String → Except Err Unit
  search_memory : String → Nat → Except Err (List MemoryRecord)
  generate_text : String → String → Except Err (List (String × String))
  close_browser : Except Err Unit

/-- The API-record filter of `summarize_results`, line 106 of the
source: `[m for m in memories if m.get('metadata', \x7b\x7d).get('type') == 'api_request']`. -/
def apiMemoriesOf (memories : List MemoryRecord) : List MemoryRecord :=
  memories.filter (fun m => dictGet (m.metadata.getD []) "type" == some "api_request")

/-- One line of the API context block, line 113 of the source:
`f"..."` with index `i` (0-based in the loop, printed as `i+1`),
the first 200 characters of `text` (empty string when the key is
missing), and a trailing ellipsis. -/
def apiLine (i : Nat) (api : MemoryRecord) : String :=
  toString (i + 1) ++ ". " ++ (api.text.getD "").take 200 ++ "...\n"

/-- The API context block (`api_info`), lines 109-113 of the source:
empty when no record matched, otherwise a header plus one numbered
excerpt line per matching record, in result order. -/
def apiInfoString (api_memories : List MemoryRecord) : String :=
  if api_memories.isEmpty then ""
  else "APIs discovered:\n" ++ String.join (api_memories.enum.map (fun p => apiLine p.1 p.2))

/-- The single-quote character, as a string. -/
def sq : String := (Char.ofNat 39).toString

/-- The two characters backslash-n. The Python source writes `\\n`
inside its f-strings, so the prompt contains these two literal
characters, not a newline. -/
def bsn : String := "\\n"

/-- The summary prompt, lines 116-126 of the source. -/
def summaryPrompt (user_goal api_info : String) : String :=
  "You are Hermes-3, an expert AI assistant skilled at summarizing information. " ++
  "Summarize what was learned while pursuing this web automation goal: " ++
    sq ++ user_goal ++ sq ++ "." ++ bsn ++ bsn ++
  "Context:" ++ bsn ++
  api_info ++ bsn ++
  "Focus your summary on these key aspects:" ++ bsn ++
  "1. What was the primary outcome or accomplishment related to the goal?" ++ bsn ++
  "2. What specific API patterns, request structures, or key UI elements were discovered or interacted with?" ++ bsn ++
  "3. What insights or learned patterns could be useful for future automation tasks related to this website or goal?" ++ bsn ++
  "Keep the summary concise and informative."

/-- `summarize_results(user_goal)`, lines 92-129 of the source:
search the memory index with `top_k=10`, filter to API records, build
the prompt, call the inference client under the "general" model role,
and return `response.get('response', 'No summary available.')`.
Returns the trace of collaborator calls together with the result. -/
def summarizeResults (c : Collaborators) (goal : String) :
    List Event × Except Err String :=
  match c.search_memory goal 10 with
  | .error e => ([.searchCall goal 10], .error e)
  | .ok memories =>
    match c.generate_text (summaryPrompt goal (apiInfoString (apiMemoriesOf memories)))
        "general" with
    | .error e =>
      ([.searchCall goal 10,
        .generateCall (summaryPrompt goal (apiInfoString (apiMemoriesOf memories))) "general"],
       .error e)
    | .ok response =>
      ([.searchCall goal 10,
        .generateCall (summaryPrompt goal (apiInfoString (apiMemoriesOf memories))) "general"],
       .ok (dictGetD response "response" "No summary available."))

/-- `api_search(query)`, lines 131-141 of the source: a direct
delegation to `search_memory(query, top_k=5)`. -/
def apiSearch (c : Collaborators) (query : String) :
    List Event × Except Err (List MemoryRecord) :=
  ([.searchCall query 5], c.search_memory query 5)

/-- The PLANNING-step call event, lines 71-76 of the source: the
planner receives the goal and the navigation state snapshot. -/
def planEvent (c : Collaborators) (goal : String) : Event :=
  .planCall goal c.current_url c.page_content c.captured_apis

/-- The body of the `try` block of `perform_web_goal`, lines 64-84 of
the source: PLANNING (snapshot the navigation state, call the planner),
then EXECUTING (`navigate_and_learn(user_goal, plan=detailed_plan)`),
then SUMMARIZING (`summarize_results(user_goal)`). The first raised
exception aborts the remaining steps. -/
def tryBody (c : Collaborators) (goal : String) : List Event × Except Err Unit :=
  match c.create_detailed_plan goal c.current_url c.page_content c.captured_apis with
  | .error e => ([planEvent c goal], .error e)
  | .ok plan =>
    match c.navigate_and_learn goal plan with
    | .error e => ([planEvent c goal, .navigateCall goal plan], .error e)
    | .ok _ =>
      match (summarizeResults c goal).2 with
      | .error e =>
        ([planEvent c goal, .navigateCall goal plan] ++ (summarizeResults c goal).1, .error e)
      | .ok _ =>
        ([planEvent c goal, .navigateCall goal plan] ++ (summarizeResults c goal).1, .ok ())

/-- `perform_web_goal(user_goal)`, lines 49-90 of the source: run the
`try` body, then the `finally` block, which calls
`web_navigator.close_browser()` unconditionally. Python `finally`
semantics: if the `finally` block itself raises, its exception
propagates to the caller, replacing any in-flight exception; otherwise
the outcome of the `try` body stands. -/
def performWebGoal (c : Collaborators) (goal : String) : List Event × Except Err Unit :=
  match c.close_browser with
  | .error ce => ((tryBody c goal).1 ++ [.closeCall], .error ce)
  | .ok _ => ((tryBody c goal).1 ++ [.closeCall], (tryBody c goal).2)

/-- Number of `closeCall` events in a trace. -/
def closeCount (t : List Event) : Nat :=
  t.countP (fun e => e == Event.closeCall)

/-- A browser session manager handle, as the constructor configures
it: `SeleniumManager(headless=False)` on line 27 of the source. -/
structure SeleniumManager where
  headless : Bool
  deriving DecidableEq, Repr

/-- The fields of the constructed `Navigator` that the manager wiring
claims are about: the engine stores one `selenium_manager` and passes
a manager to the `WebNavigator` it constructs (line 38-42 of the
source). `ollama_client` is an opaque handle. -/
structure NavigatorState where
  ollama_client : Nat
  selenium_manager : SeleniumManager
  web_navigator_manager : SeleniumManager
  deriving DecidableEq, Repr

/-- `Navigator.__init__`, lines 15-42 of the source: if no manager is
supplied, construct `SeleniumManager(headless=False)`; otherwise use
the supplied one; then construct the `WebNavigator` with
`self.selenium_manager`. -/
def navigatorInit (ollama_client : Nat) (selenium_manager : Option SeleniumManager) :
    NavigatorState :=
  let sm : SeleniumManager :=
    match selenium_manager with
    | none => { headless := false }
    | some m => m
  { ollama_client := ollama_client
    selenium_manager := sm
    web_navigator_manager := sm }

/-! Helper lemmas about the traces. -/

theorem summarize_trace_shape (c : Collaborators) (goal : String) :
    ∀ ev ∈ (summarizeResults c goal).1,
      ev = Event.searchCall goal 10 ∨ ∃ p, ev = Event.generateCall p "general" := by
  unfold summarizeResults
  split
  · simp
  · split <;>
    · intro ev hev
      simp only [List.mem_cons, List.not_mem_nil, or_false] at hev
      rcases hev with h | h
      · exact Or.inl h
      · exact Or.inr ⟨_, h⟩

theorem closeCall_not_in_summarize (c : Collaborators) (goal : String) :
    Event.closeCall ∉ (summarizeResults c goal).1 := by
  intro hmem
  rcases summarize_trace_shape c goal _ hmem with h | ⟨p, h⟩ <;> exact absurd h (by simp)

theorem navigateCall_not_in_summarize (c : Collaborators) (goal : String) (g p : String) :
    Event.navigateCall g p ∉ (summarizeResults c goal).1 := by
  intro hmem
  rcases summarize_trace_shape c goal _ hmem with h | ⟨q, h⟩ <;> exact absurd h (by simp)

theorem closeCall_not_in_tryBody (c : Collaborators) (goal : String) :
    Event.closeCall ∉ (tryBody c goal).1 := by
  unfold tryBody
  split
  · simp [planEvent]
  · split
    · simp [planEvent]
    · split <;> simp [planEvent, closeCall_not_in_summarize c goal]

theorem perform_trace (c : Collaborators) (goal : String) :
    (performWebGoal c goal).1 = (tryBody c goal).1 ++ [Event.closeCall] := by
  unfold performWebGoal
  cases hc : c.close_browser <;> simp

theorem tryBody_trace_plan_error (c : Collaborators) (goal : String) (e : Err)
    (hp : c.create_detailed_plan goal c.current_url c.page_content c.captured_apis =
      Except.error e) :
    (tryBody c goal).1 = [planEvent c goal] := by
  unfold tryBody
  rw [hp]

theorem tryBody_trace_nav_error (c : Collaborators) (goal plan : String) (e : Err)
    (hp : c.create_detailed_plan goal c.current_url c.page_content c.captured_apis =
      Except.ok plan)
    (hn : c.navigate_and_learn goal plan = Except.error e) :
    (tryBody c goal).1 = [planEvent c goal, Event.navigateCall goal plan] := by
  unfold tryBody
  rw [hp]
  dsimp only
  rw [hn]

theorem tryBody_trace_nav_ok (c : Collaborators) (goal plan : String)
    (hp : c.create_detailed_plan goal c.current_url c.page_content c.captured_apis =
      Except.ok plan)
    (hn : c.navigate_and_learn goal plan = Except.ok ()) :
    (tryBody c goal).1 =
      [planEvent c goal, Event.navigateCall goal plan] ++ (summarizeResults c goal).1 := by
  unfold tryBody
  rw [hp]
  dsimp only
  rw [hn]
  dsimp only
  split <;> rfl

/-! Concrete collaborator stubs used by witnesses and counterexamples. -/

/-- An all-succeeding collaborator stub. -/
def okC : Collaborators :=
  { current_url := ""
    page_content := ""
    captured_apis := []
    create_detailed_plan := fun _ _ _ _ => .ok "PLAN"
    navigate_and_learn := fun _ _ => .ok ()
    search_memory := fun _ _ => .ok []
    generate_text := fun _ _ => .ok [("response", "SUMMARY")]
    close_browser := .ok () }

/-- Stub where the PLANNING call raises and the cleanup call also raises. -/
def planAndCloseFailC : Collaborators :=
  { okC with
    create_detailed_plan := fun _ _ _ _ => .error "planfail"
    close_browser := .error "closefail" }

/-- Stub where the EXECUTING call raises and the cleanup call also raises. -/
def navAndCloseFailC : Collaborators :=
  { okC with
    navigate_and_learn := fun _ _ => .error "navfail"
    close_browser := .error "closefail" }

/-- Stub where only the EXECUTING call raises. -/
def navFailC : Collaborators :=
  { okC with navigate_and_learn := fun _ _ => .error "navfail" }

/-- Stub where only the PLANNING call raises. -/
def planFailC : Collaborators :=
  { okC with create_detailed_plan := fun _ _ _ _ => .error "planfail" }

/-- Stub whose inference response mapping has no "response" key. -/
def fallbackC : Collaborators :=
  { okC with generate_text := fun _ _ => .ok [] }

/-! The claims. -/

/-- Claim C1: every invocation of `perform_web_goal` performs the
`close_browser` call exactly once, on every exit path — whichever of
PLANNING, EXECUTING or SUMMARIZING completes normally or raises, and
whether or not the cleanup call itself raises. -/
theorem c1_cleanup_always (c : Collaborators) (goal : String) :
    closeCount (performWebGoal c goal).1 = 1 := by
  unfold closeCount
  rw [perform_trace, List.countP_append]
  have h0 : List.countP (fun e => e == Event.closeCall) (tryBody c goal).1 = 0 := by
    rw [List.countP_eq_zero]
    intro a ha hbeq
    have ha2 : a = Event.closeCall := by simpa using hbeq
    subst ha2
    exact closeCall_not_in_tryBody c goal ha
  rw [h0]
  simp [List.countP_cons]

/-- Claim C7: `api_search(q)` delegates to `search_memory(q, top_k=5)`
and returns its result unchanged. -/
theorem c7_api_search_passthrough (c : Collaborators) (q : String) :
    (apiSearch c q).1 = [Event.searchCall q 5] ∧ (apiSearch c q).2 = c.search_memory q 5 :=
  ⟨rfl, rfl⟩

/-- Claim C8: construction — with no manager supplied, a fresh
`SeleniumManager` with `headless = False` is used; a supplied manager
is used as given; and the manager handed to the `WebNavigator` is the
very manager the engine stores. -/
theorem c8_manager_wiring (client : Nat) :
    (navigatorInit client none).selenium_manager = { headless := false } ∧
    (∀ m, (navigatorInit client (some m)).selenium_manager = m) ∧
    (∀ o, (navigatorInit client o).web_navigator_manager =
      (navigatorInit client o).selenium_manager) :=
  ⟨rfl, fun _ => rfl, fun _ => rfl⟩

/-- Claim C2 counterexample: PLANNING raises "planfail" and the
cleanup call raises "closefail"; the caller observes "closefail", not
the original "planfail" — the bare `finally` block lets a cleanup
exception replace the in-flight one. -/
theorem c2_counterexample :
    (tryBody planAndCloseFailC "g").2 = Except.error "planfail" ∧
    (performWebGoal planAndCloseFailC "g").2 = Except.error "closefail" ∧
    (performWebGoal planAndCloseFailC "g").2 ≠ Except.error "planfail" := by
  refine ⟨rfl, rfl, fun h => absurd (Except.error.inj h) (by decide)⟩

/-- Claim C2 amended: when a pipeline step raises `e`, the caller
observes `e` exactly when the cleanup call completes normally; when the
cleanup call itself raises `ce`, the caller observes `ce` instead (the
original error is replaced). -/
theorem c2_cleanup_error_replaces (c : Collaborators) (goal : String) (e : Err)
    (hp : (tryBody c goal).2 = Except.error e) :
    (c.close_browser = Except.ok () → (performWebGoal c goal).2 = Except.error e) ∧
    (∀ ce, c.close_browser = Except.error ce →
      (performWebGoal c goal).2 = Except.error ce) := by
  constructor
  · intro hc
    unfold performWebGoal
    rw [hc]
    exact hp
  · intro ce hc
    unfold performWebGoal
    rw [hc]

/-- Claim C2 witness: concrete runs discharging the amended claim. -/
theorem c2_cleanup_error_replaces_witness :
    (performWebGoal planAndCloseFailC "g").2 = Except.error "closefail" :=
  (c2_cleanup_error_replaces planAndCloseFailC "g" "planfail" rfl).2 "closefail" rfl

/-- The claim hypothesis of C4: the PLANNING call raised `e`, or the
PLANNING call succeeded with some plan and the EXECUTING call on that
plan raised `e`. -/
def planningOrExecutingRaises (c : Collaborators) (goal : String) (e : Err) : Prop :=
  c.create_detailed_plan goal c.current_url c.page_content c.captured_apis =
    Except.error e ∨
  ∃ plan, c.create_detailed_plan goal c.current_url c.page_content c.captured_apis =
      Except.ok plan ∧ c.navigate_and_learn goal plan = Except.error e

/-- Claim C4 counterexample: EXECUTING raises "navfail" and cleanup
raises "closefail"; the caller observes "closefail", so the claim as
stated (the exact pipeline exception always reaches the caller) fails
when the cleanup call itself raises. -/
theorem c4_counterexample :
    planningOrExecutingRaises navAndCloseFailC "g" "navfail" ∧
    (performWebGoal navAndCloseFailC "g").2 = Except.error "closefail" ∧
    (performWebGoal navAndCloseFailC "g").2 ≠ Except.error "navfail" := by
  refine ⟨Or.inr ⟨"PLAN", rfl, rfl⟩, rfl,
    fun h => absurd (Except.error.inj h) (by decide)⟩

/-- Claim C4 amended: when PLANNING or EXECUTING raises `e` and the
cleanup call completes normally, the caller observes exactly `e`, and
the cleanup call is the last collaborator call of the invocation (it
happens before the exception propagates). -/
theorem c4_error_after_cleanup (c : Collaborators) (goal : String) (e : Err)
    (h : planningOrExecutingRaises c goal e) (hc : c.close_browser = Except.ok ()) :
    (performWebGoal c goal).2 = Except.error e ∧
    (performWebGoal c goal).1.getLast? = some Event.closeCall := by
  have htry : (tryBody c goal).2 = Except.error e := by
    rcases h with hp | ⟨plan, hp, hn⟩
    · unfold tryBody
      rw [hp]
    · unfold tryBody
      rw [hp]
      dsimp only
      rw [hn]
  refine ⟨?_, ?_⟩
  · unfold performWebGoal
    rw [hc]
    exact htry
  · rw [perform_trace]
    exact List.getLast?_concat _

/-- Claim C4 witness: a concrete run in which EXECUTING raises. -/
theorem c4_error_after_cleanup_witness :
    (performWebGoal navFailC "g").2 = Except.error "navfail" ∧
    (performWebGoal navFailC "g").1.getLast? = some Event.closeCall :=
  c4_error_after_cleanup navFailC "g" "navfail" (Or.inr ⟨"PLAN", rfl, rfl⟩) rfl

/-- Claim C3: fail-fast sequencing — if the PLANNING call raises, no
EXECUTING, memory-search or inference call is ever performed; if the
EXECUTING call raises, no memory-search or inference call is ever
performed. -/
theorem c3_fail_fast (c : Collaborators) (goal : String) (e : Err) :
    (c.create_detailed_plan goal c.current_url c.page_content c.captured_apis =
        Except.error e →
      (∀ g p, Event.navigateCall g p ∉ (performWebGoal c goal).1) ∧
      (∀ q k, Event.searchCall q k ∉ (performWebGoal c goal).1) ∧
      (∀ pr m, Event.generateCall pr m ∉ (performWebGoal c goal).1)) ∧
    (∀ plan, c.create_detailed_plan goal c.current_url c.page_content c.captured_apis =
        Except.ok plan →
      c.navigate_and_learn goal plan = Except.error e →
      (∀ q k, Event.searchCall q k ∉ (performWebGoal c goal).1) ∧
      (∀ pr m, Event.generateCall pr m ∉ (performWebGoal c goal).1)) := by
  constructor
  · intro hp
    rw [perform_trace, tryBody_trace_plan_error c goal e hp]
    refine ⟨fun g p => ?_, fun q k => ?_, fun pr m => ?_⟩ <;> simp [planEvent]
  · intro plan hp hn
    rw [perform_trace, tryBody_trace_nav_error c goal plan e hp hn]
    refine ⟨fun q k => ?_, fun pr m => ?_⟩ <;> simp [planEvent]

/-- Claim C3 witness: a concrete run in which PLANNING raises, and a
concrete run in which EXECUTING raises. -/
theorem c3_fail_fast_witness :
    Event.navigateCall "g" "PLAN" ∉ (performWebGoal planFailC "g").1 ∧
    Event.searchCall "g" 10 ∉ (performWebGoal navFailC "g").1 :=
  ⟨((c3_fail_fast planFailC "g" "planfail").1 rfl).1 "g" "PLAN",
   ((c3_fail_fast navFailC "g" "navfail").2 "PLAN" rfl rfl).1 "g" 10⟩

/-- Claim C9: the plan produced by the PLANNING call is handed to the
EXECUTING call verbatim — the one `navigateCall` of the invocation
carries exactly the goal and the plan the planner returned. -/
theorem c9_plan_passthrough (c : Collaborators) (goal plan : String)
    (hp : c.create_detailed_plan goal c.current_url c.page_content c.captured_apis =
      Except.ok plan) :
    Event.navigateCall goal plan ∈ (performWebGoal c goal).1 ∧
    (∀ g p, Event.navigateCall g p ∈ (performWebGoal c goal).1 →
      g = goal ∧ p = plan) := by
  cases hn : c.navigate_and_learn goal plan with
  | error e =>
    rw [perform_trace, tryBody_trace_nav_error c goal plan e hp hn]
    constructor
    · simp
    · intro g p hmem
      simp [planEvent] at hmem
      exact hmem
  | ok u =>
    cases u
    rw [perform_trace, tryBody_trace_nav_ok c goal plan hp hn]
    constructor
    · simp
    · intro g p hmem
      simp [planEvent, navigateCall_not_in_summarize c goal g p] at hmem
      exact hmem

/-- Claim C9 witness: a concrete successful run. -/
theorem c9_plan_passthrough_witness :
    Event.navigateCall "g" "PLAN" ∈ (performWebGoal okC "g").1 :=
  (c9_plan_passthrough okC "g" "PLAN" rfl).1

/-- Claim C5: `summarize_results` returns a string for every
memory-search result, the empty one included; it returns the fixed
fallback exactly when the response mapping lacks a "response" key, and
the present value verbatim otherwise. -/
theorem c5_summary_total_and_fallback (c : Collaborators) (goal : String)
    (mems : List MemoryRecord) (resp : List (String × String))
    (hs : c.search_memory goal 10 = Except.ok mems)
    (hg : c.generate_text (summaryPrompt goal (apiInfoString (apiMemoriesOf mems)))
        "general" = Except.ok resp) :
    (∃ s, (summarizeResults c goal).2 = Except.ok s) ∧
    (dictGet resp "response" = none →
      (summarizeResults c goal).2 = Except.ok "No summary available.") ∧
    (∀ v, dictGet resp "response" = some v →
      (summarizeResults c goal).2 = Except.ok v) := by
  have hres : (summarizeResults c goal).2 =
      Except.ok (dictGetD resp "response" "No summary available.") := by
    unfold summarizeResults
    rw [hs]
    dsimp only
    rw [hg]
  refine ⟨⟨_, hres⟩, ?_, ?_⟩
  · intro hnone
    rw [hres]
    unfold dictGetD
    rw [hnone]
    rfl
  · intro v hv
    rw [hres]
    unfold dictGetD
    rw [hv]
    rfl

/-- Claim C5 witness: empty memory result and a response mapping with
no "response" key yield the fallback string. -/
theorem c5_summary_total_and_fallback_witness :
    (summarizeResults fallbackC "g").2 = Except.ok "No summary available." :=
  (c5_summary_total_and_fallback fallbackC "g" [] [] rfl rfl).2.1 rfl

/-- Claim C6: the summarization step searches the memory index with
the goal and `top_k = 10`; its inference call carries the prompt built
over the context block; the kept records are exactly those of the
search result whose metadata type is "api_request", in result order;
the context block is empty when none matches, and otherwise lists, for
the kept records indexed 1..N, the first 200 characters of each
record's text. -/
theorem c6_context_block (c : Collaborators) (goal : String) (mems : List MemoryRecord)
    (hs : c.search_memory goal 10 = Except.ok mems) :
    (summarizeResults c goal).1.head? = some (Event.searchCall goal 10) ∧
    Event.generateCall (summaryPrompt goal (apiInfoString (apiMemoriesOf mems)))
      "general" ∈ (summarizeResults c goal).1 ∧
    (∀ m, m ∈ apiMemoriesOf mems ↔
      m ∈ mems ∧ dictGet (m.metadata.getD []) "type" = some "api_request") ∧
    (apiMemoriesOf mems = [] → apiInfoString (apiMemoriesOf mems) = "") ∧
    (apiMemoriesOf mems ≠ [] →
      apiInfoString (apiMemoriesOf mems) =
        "APIs discovered:\n" ++ String.join ((apiMemoriesOf mems).enum.map
          (fun p => toString (p.1 + 1) ++ ". " ++ (p.2.text.getD "").take 200 ++ "...\n"))) := by
  refine ⟨?_, ?_, ?_, ?_, ?_⟩
  · unfold summarizeResults
    rw [hs]
    dsimp only
    split <;> rfl
  · unfold summarizeResults
    rw [hs]
    dsimp only
    split <;> simp
  · intro m
    unfold apiMemoriesOf
    rw [List.mem_filter]
    simp
  · intro h
    rw [h]
    rfl
  · intro h
    unfold apiInfoString
    rw [if_neg]
    · unfold apiLine
      rfl
    · simp [h]

/-- Claim C6 witness: two records, one of API type and one not. -/
theorem c6_context_block_witness :
    (summarizeResults
      { okC with search_memory := fun _ _ =>
          Except.ok [{ text := some "alpha", metadata := some [("type", "api_request")] },
                     { text := some "beta", metadata := some [("type", "other")] }] }
      "g").1.head? = some (Event.searchCall "g" 10) :=
  (c6_context_block _ "g"
    [{ text := some "alpha", metadata := some [("type", "api_request")] },
     { text := some "beta", metadata := some [("type", "other")] }] rfl).1

/-- Claim C10: a record with no metadata mapping, or whose metadata
has no type key, is silently excluded from the API context block; a
kept record with no text key gets its excerpt built from the empty
string. -/
theorem c10_malformed_records (ms : List MemoryRecord) (m : MemoryRecord) (i : Nat) :
    (m.metadata = none → m ∉ apiMemoriesOf ms) ∧
    (dictGet (m.metadata.getD []) "type" = none → m ∉ apiMemoriesOf ms) ∧
    (m.text = none →
      apiLine i m = toString (i + 1) ++ ". " ++ "".take 200 ++ "...\n") := by
  refine ⟨?_, ?_, ?_⟩
  · intro hmd hmem
    unfold apiMemoriesOf at hmem
    have hpred := (List.mem_filter.mp hmem).2
    rw [hmd] at hpred
    simp [dictGet] at hpred
  · intro hty hmem
    unfold apiMemoriesOf at hmem
    have hpred := (List.mem_filter.mp hmem).2
    rw [show (dictGet (m.metadata.getD []) "type" == some "api_request") = false by
      rw [hty]; rfl] at hpred
    exact absurd hpred (by simp)
  · intro ht
    unfold apiLine
    rw [ht]
    rfl

/-- Claim C10 witness: a record with neither metadata nor text. -/
theorem c10_malformed_records_witness :
    (MemoryRecord.mk none none) ∉ apiMemoriesOf [MemoryRecord.mk none none] ∧
    apiLine 0 (MemoryRecord.mk none none) =
      toString (0 + 1) ++ ". " ++ "".take 200 ++ "...\n" :=
  ⟨(c10_malformed_records [MemoryRecord.mk none none] (MemoryRecord.mk none none) 0).1 rfl,
   (c10_malformed_records [MemoryRecord.mk none none] (MemoryRecord.mk none none) 0).2.2 rfl⟩

end Orchestrator
